import Mathlib

/-!
Verification of the head-fixation host controller (`headfixgui.py`):
a shallow embedding of its device-protocol encoding, serial-line event
decoding and session-state bookkeeping, with theorems about the
properties the design document states.

Strings are handled at the `List Char` level with structural functions so
that every definition evaluates inside the kernel.  A Python float is
modelled as the exact decimal it was parsed from (`PyFloat`: a signed
mantissa and a power-of-ten scale); its exact value in `ℚ` is given by
`PyFloat.toRat`, and the arithmetic the script performs on floats
(addition of trial durations, multiplication by an integer scale factor,
truncation by `int(...)`) is carried out exactly on this representation.
Python machine integers are modelled as `ℤ`.
-/

/-! ## Model of Python decimal-literal floats -/

/-- Exact decimal value of a parsed Python float literal:
`mant / 10 ^ scale`. -/
structure PyFloat where
  mant : ℤ
  scale : ℕ
deriving DecidableEq

/-- Exact rational value of a `PyFloat`. -/
def PyFloat.toRat (f : PyFloat) : ℚ :=
  (f.mant : ℚ) / 10 ^ f.scale

/-- Exact addition of two decimals (models `+` on the parsed floats). -/
def PyFloat.add (a b : PyFloat) : PyFloat :=
  ⟨a.mant * 10 ^ b.scale + b.mant * 10 ^ a.scale, a.scale + b.scale⟩

/-- Negation of a decimal (a leading `'-'` sign). -/
def PyFloat.neg (f : PyFloat) : PyFloat :=
  ⟨-f.mant, f.scale⟩

/-- The decimal zero. -/
def PyFloat.zero : PyFloat := ⟨0, 0⟩

/-! ## Models of the Python string/number builtins used by the script -/

/-- Decimal value of a digit list, most significant first (the way Python
reads a run of ASCII digits). -/
def natOfDigits (cs : List Char) : ℕ :=
  cs.foldl (fun n c => 10 * n + (c.toNat - 48)) 0

/-- Every character is an ASCII decimal digit. -/
def allDigits (cs : List Char) : Bool :=
  cs.all (fun c => c.isDigit)

/-- Strip leading and trailing whitespace, as Python `float`/`int` do on
their string argument. -/
def trimChars (cs : List Char) : List Char :=
  ((cs.dropWhile Char.isWhitespace).reverse.dropWhile Char.isWhitespace).reverse

/-- Unsigned decimal literal: digits with at most one decimal point and at
least one digit.  Model of the body of Python `float(...)` restricted to
finite plain-decimal literals (no exponent, no `inf`/`nan`, no `_`
separators — the device protocol never produces those shapes). -/
def pyFloatCore (cs : List Char) : Option PyFloat :=
  let ip := cs.takeWhile (fun c => c ≠ '.')
  let rest := cs.dropWhile (fun c => c ≠ '.')
  match rest with
  | [] =>
      if ip.isEmpty then none
      else if allDigits ip then some ⟨(natOfDigits ip : ℤ), 0⟩ else none
  | _ :: fp =>
      if ip.isEmpty && fp.isEmpty then none
      else if allDigits ip && allDigits fp then
        some ⟨(natOfDigits (ip ++ fp) : ℤ), fp.length⟩
      else none

/-- Optional sign in front of an unsigned numeric literal. -/
def pySigned (core : List Char → Option PyFloat) : List Char → Option PyFloat
  | '-' :: cs => (core cs).map PyFloat.neg
  | '+' :: cs => core cs
  | cs => core cs

/-- Model of Python `float(s)` on the character list of `s` (finite
plain-decimal literals; anything else raises `ValueError`, modelled as
`none`). -/
def pyFloatOfChars (cs : List Char) : Option PyFloat :=
  pySigned pyFloatCore (trimChars cs)

/-- Model of Python `float(s)`. -/
def parsePyFloat (s : String) : Option PyFloat :=
  pyFloatOfChars s.toList

/-- Unsigned decimal integer literal. -/
def pyIntCore (cs : List Char) : Option ℤ :=
  if cs.isEmpty then none
  else if allDigits cs then some (natOfDigits cs : ℤ) else none

/-- Model of Python `int(s)` on the character list of `s`: optional sign
then decimal digits; anything else raises `ValueError`, modelled as
`none`. -/
def pyIntOfChars (cs : List Char) : Option ℤ :=
  match trimChars cs with
  | '-' :: ds => (pyIntCore ds).map Neg.neg
  | '+' :: ds => pyIntCore ds
  | ds => pyIntCore ds

/-- Model of Python `int(s)`. -/
def parsePyInt (s : String) : Option ℤ :=
  pyIntOfChars s.toList

/-- Exact-value specification of Python `int(x)` on a number `x`:
truncation toward zero. -/
def pyTrunc (q : ℚ) : ℤ :=
  if q < 0 then -⌊-q⌋ else ⌊q⌋

/-- Executable form of `int(f * mult)` on a parsed float `f` and an
integer multiplier, truncating toward zero. -/
def pyTruncScaled (f : PyFloat) (mult : ℤ) : ℤ :=
  (f.mant * mult).tdiv (10 ^ f.scale)

/-- Model of Python `str.split(sep)` with a one-character separator:
splitting on `','` keeps empty fields and yields one more field than there
are commas. -/
def splitOnComma : List Char → List (List Char)
  | [] => [[]]
  | c :: rest =>
      let r := splitOnComma rest
      if c = ',' then [] :: r
      else
        match r with
        | [] => [[c]]
        | g :: gs => (c :: g) :: gs

/-- Bool-valued test that `p` is an initial segment of `s`
(Python `str.startswith`). -/
def beginsWith : List Char → List Char → Bool
  | [], _ => true
  | _ :: _, [] => false
  | p :: ps, c :: cs => if p = c then beginsWith ps cs else false

/-- Bool-valued test that `pat` occurs contiguously inside `s`
(Python `pat in s`). -/
def hasSubList (pat : List Char) : List Char → Bool
  | [] => beginsWith pat []
  | c :: cs => beginsWith pat (c :: cs) || hasSubList pat cs

/-- Python `pat in line` on strings. -/
def strContains (line pat : String) : Bool :=
  hasSubList pat.toList line.toList

/-- Python `line.startswith(pre)` on strings. -/
def strBeginsWith (line pre : String) : Bool :=
  beginsWith pre.toList line.toList

/-! ## Data model of the session (headfixgui.py globals and table rows) -/

/-- Fixation condition shown by `fixation_label` (lines 158-169). -/
inductive FixStatus
  | INACTIVE
  | ACTIVE
  | ESCAPE
  | TIME_UP
deriving DecidableEq

/-- Struggle detector reading shown by `struggle_label` (lines 171-175). -/
inductive StruggleStatus
  | NO
  | YES
deriving DecidableEq

/-- One parsed `EVENT,...` line: elapsed seconds plus the five trial
counts (lines 151-154). -/
structure TrialResult where
  time : PyFloat
  fix : ℤ
  escape : ℤ
  timeup : ℤ
  struggle : ℤ
  reward : ℤ
deriving DecidableEq

/-- The `totals` dictionary (line 23). -/
structure Totals where
  time : PyFloat
  fix : ℤ
  escape : ℤ
  timeup : ℤ
  struggle : ℤ
  reward : ℤ
deriving DecidableEq

/-- All-zero totals, the initial value of the `totals` dictionary. -/
def zeroTotals : Totals := ⟨PyFloat.zero, 0, 0, 0, 0, 0⟩

/-- All-zero last-trial row, the initial text of table row 2. -/
def zeroTrial : TrialResult := ⟨PyFloat.zero, 0, 0, 0, 0, 0⟩

/-- The session-scoped mutable state of the script: the totals dictionary,
the displayed last-trial row (`table_labels[2]`), the two status labels,
and the timer globals (lines 22-27). -/
structure SessionState where
  totals : Totals
  lastTrial : TrialResult
  fixationStatus : FixStatus
  struggleStatus : StruggleStatus
  sessionStartTime : Option ℚ
  timerRunning : Bool
deriving DecidableEq

/-- Typed classification of one decoded serial line (spec section 3,
`DeviceEvent`); an unrecognized line is one that decodes to no event. -/
inductive DeviceEvent
  | trialResult (t : TrialResult)
  | fixationChanged (s : FixStatus)
  | struggleChanged (s : StruggleStatus)
  | rewardGiven
deriving DecidableEq

/-- Discriminator for trial events. -/
def isTrialEv : DeviceEvent → Bool
  | .trialResult _ => true
  | _ => false

/-! ## Command encoder (headfixgui.py lines 63-79, 334-336) -/

/-- Model of `send_value` (lines 65-72): parse the entry text as a float;
on success write `"<command><int(val*multiplier)>\n"` in a single
`ser.write`; a `ValueError` is caught and nothing is written.  The result
is the list of transport writes performed. -/
def send_value (input : String) (command : String) (multiplier : ℤ) : List String :=
  match parsePyFloat input with
  | some val => [command ++ toString (pyTruncScaled val multiplier) ++ "\n"]
  | none => []

/-- The `ParameterSet` entry discipline of spec section 3 (the last value
sent for one parameter) layered over `send_value`: the entry is updated
exactly when a write occurs, and kept when the parse fails. -/
def send_value_entry (prev : Option PyFloat) (input : String) (command : String)
    (multiplier : ℤ) : Option PyFloat × List String :=
  match parsePyFloat input with
  | some val => (some val, [command ++ toString (pyTruncScaled val multiplier) ++ "\n"])
  | none => (prev, [])

/-- Model of `send_threshold` (line 75): command byte `'T'`, default
multiplier 1. -/
def send_threshold (input : String) : List String := send_value input "T" 1

/-- Model of `send_fix_duration` (line 76): command byte `'X'`,
multiplier 1000. -/
def send_fix_duration (input : String) : List String := send_value input "X" 1000

/-- Model of `send_fix_delay` (line 77): command byte `'Y'`,
multiplier 1000. -/
def send_fix_delay (input : String) : List String := send_value input "Y" 1000

/-- Model of `send_escape_buffer` (line 78): command byte `'Z'`, default
multiplier 1. -/
def send_escape_buffer (input : String) : List String := send_value input "Z" 1

/-- Model of `send_reward_buffer` (line 79): command byte `'Q'`, default
multiplier 1. -/
def send_reward_buffer (input : String) : List String := send_value input "Q" 1

/-- Model of `send_level` (lines 334-336): write `"L<level>\n"`; the
function performs no range check (the GUI only wires it to levels 1-5). -/
def send_level (level : ℤ) : List String :=
  ["L" ++ toString level ++ "\n"]

/-! ## Session-state transitions (update_table, reset_table, sessions) -/

/-- Model of `update_table` (lines 82-99): record the event as the
displayed last-trial row and add each of its six fields into the running
totals. -/
def update_table (s : SessionState) (e : TrialResult) : SessionState :=
  { s with
    lastTrial := e
    totals :=
      { time := s.totals.time.add e.time
        fix := s.totals.fix + e.fix
        escape := s.totals.escape + e.escape
        timeup := s.totals.timeup + e.timeup
        struggle := s.totals.struggle + e.struggle
        reward := s.totals.reward + e.reward } }

/-- Model of `reset_table` (lines 324-328): set both display rows back to
`"0"` and zero every entry of the totals dictionary.  Nothing else is
touched. -/
def reset_table (s : SessionState) : SessionState :=
  { s with totals := zeroTotals, lastTrial := zeroTrial }

/-- Model of `start_session` (lines 184-189): record the start time, set
the timer running and write `'b'`. -/
def start_session (s : SessionState) (now : ℚ) : SessionState × List String :=
  ({ s with sessionStartTime := some now, timerRunning := true }, ["b"])

/-- Model of `stop_session` (lines 192-196): stop the timer (totals are
left untouched) and write `'c'`. -/
def stop_session (s : SessionState) : SessionState × List String :=
  ({ s with timerRunning := false }, ["c"])

/-! ## Event decoder (the body of update_serial, lines 140-181) -/

/-- Outcome of the `EVENT,`-prefix branch (lines 148-155) on one line. -/
inductive TrialBranch
  | noEvent
  | event (t : TrialResult)
  | exn
deriving DecidableEq

/-- Field parsing of an `EVENT` line that split into exactly 7 parts
(lines 151-154): field 1 as a float, fields 2-6 as integers; any failure
raises `ValueError` (modelled as `none`), so no event is built. -/
def parseEventFields : List (List Char) → Option TrialResult
  | [_, p1, p2, p3, p4, p5, p6] =>
      match pyFloatOfChars p1, pyIntOfChars p2, pyIntOfChars p3,
            pyIntOfChars p4, pyIntOfChars p5, pyIntOfChars p6 with
      | some t, some f, some e, some u, some g, some r => some ⟨t, f, e, u, g, r⟩
      | _, _, _, _, _, _ => none
  | _ => none

/-- The `EVENT,`-prefix branch (lines 148-155): a line with the prefix and
exactly 7 comma fields either yields a trial event or raises out of the
iteration (`exn`, swallowed by the bare `except` at line 180); a line with
the prefix but a different field count simply produces no trial event and
execution falls through to the status checks. -/
def trialBranch (line : String) : TrialBranch :=
  if strBeginsWith line "EVENT," then
    let parts := splitOnComma line.toList
    if parts.length = 7 then
      match parseEventFields parts with
      | some t => .event t
      | none => .exn
    else .noEvent
  else .noEvent

/-- The fixation if/elif chain (lines 158-169): first matching phrase
wins within the group. -/
def fixationEvents (line : String) : List DeviceEvent :=
  if strContains line "Fixation Engaged" then [.fixationChanged .ACTIVE]
  else if strContains line "Fixation Released" then [.fixationChanged .INACTIVE]
  else if strContains line "Escape Event" then [.fixationChanged .ESCAPE]
  else if strContains line "Time-Up Release" then [.fixationChanged .TIME_UP]
  else []

/-- The struggle if/elif chain (lines 171-175), a separate `if` statement
from the fixation chain. -/
def struggleEvents (line : String) : List DeviceEvent :=
  if strContains line "Struggle YES" then [.struggleChanged .YES]
  else if strContains line "Struggle NO" then [.struggleChanged .NO]
  else []

/-- The reward check (lines 177-178), again a separate `if` statement. -/
def rewardEvents (line : String) : List DeviceEvent :=
  if strContains line "Reward Given" then [.rewardGiven]
  else []

/-- The three independent status groups evaluated in source order on the
same line. -/
def statusEvents (line : String) : List DeviceEvent :=
  fixationEvents line ++ struggleEvents line ++ rewardEvents line

/-- Events produced by one iteration of `update_serial` (lines 140-181)
for one stripped nonempty line: the `EVENT,` branch followed by the status
checks on the same line, except that a `ValueError` inside the `EVENT`
branch aborts the iteration so nothing at all is produced. -/
def decodeLine (line : String) : List DeviceEvent :=
  match trialBranch line with
  | .exn => []
  | .event t => .trialResult t :: statusEvents line
  | .noEvent => statusEvents line

/-- Effect of one decoded event on the session state (`update_serial`
writes to the table and the two status labels; a reward line is only
logged). -/
def applyEvent (s : SessionState) : DeviceEvent → SessionState
  | .trialResult t => update_table s t
  | .fixationChanged f => { s with fixationStatus := f }
  | .struggleChanged g => { s with struggleStatus := g }
  | .rewardGiven => s

/-- Apply a list of decoded events in order. -/
def applyEvents (s : SessionState) (es : List DeviceEvent) : SessionState :=
  es.foldl applyEvent s

/-- Process one serial line end to end: decode, then apply every produced
event in order. -/
def applyLine (s : SessionState) (line : String) : SessionState :=
  applyEvents s (decodeLine line)

/-- Apply a list of trial events (each one `update_table` call). -/
def applyTrials (s : SessionState) (es : List TrialResult) : SessionState :=
  es.foldl update_table s

/-! ## Statement-level decomposition of update_table for the concurrency
claim -/

/-- The six totals-updating statements of `update_table` (lines 87-92) as
individual atomic steps.  The background reader thread executes them one
at a time while holding no lock, so a foreground snapshot of `totals` can
be taken between any two of them. -/
def totalsSteps (e : TrialResult) : List (Totals → Totals) :=
  [ fun t => { t with time := t.time.add e.time },
    fun t => { t with fix := t.fix + e.fix },
    fun t => { t with escape := t.escape + e.escape },
    fun t => { t with timeup := t.timeup + e.timeup },
    fun t => { t with struggle := t.struggle + e.struggle },
    fun t => { t with reward := t.reward + e.reward } ]

/-- Run a prefix of the atomic statements. -/
def runSteps (t : Totals) (fs : List (Totals → Totals)) : Totals :=
  fs.foldl (fun acc f => f acc) t

/-! ## Concrete states and trials used by the witnesses -/

/-- The state the script starts in. -/
def initState : SessionState := ⟨zeroTotals, zeroTrial, .INACTIVE, .NO, none, false⟩

/-- A nontrivial mid-session state. -/
def demoState : SessionState :=
  ⟨⟨⟨50, 1⟩, 1, 2, 3, 4, 5⟩, ⟨⟨10, 0⟩, 1, 0, 0, 0, 1⟩, .ACTIVE, .YES, none, true⟩

/-- The trial parsed from `"EVENT,12.5,1,0,0,0,1"`. -/
def trialA : TrialResult := ⟨⟨125, 1⟩, 1, 0, 0, 0, 1⟩

/-- A second sample trial. -/
def trialB : TrialResult := ⟨⟨30, 0⟩, 0, 1, 1, 1, 0⟩

/-- The trial used to exhibit a torn snapshot: every field nonzero. -/
def tornTrial : TrialResult := ⟨⟨10, 1⟩, 1, 1, 1, 1, 1⟩

/-! ## Helper theorems -/

theorem PyFloat.toRat_add (a b : PyFloat) :
    (a.add b).toRat = a.toRat + b.toRat := by
  unfold PyFloat.add PyFloat.toRat
  have ha : ((10 : ℚ) ^ a.scale) ≠ 0 := by positivity
  have hb : ((10 : ℚ) ^ b.scale) ≠ 0 := by positivity
  rw [div_add_div _ _ ha hb]
  push_cast
  rw [pow_add]
  ring

theorem PyFloat.toRat_zero : PyFloat.zero.toRat = 0 := by
  unfold PyFloat.zero PyFloat.toRat
  norm_num

theorem pyTruncScaled_toRat (f : PyFloat) (m : ℤ) :
    pyTruncScaled f m = pyTrunc (f.toRat * (m : ℚ)) := by
  have hval : f.toRat * (m : ℚ) = ((f.mant * m : ℤ) : ℚ) / ((10 ^ f.scale : ℕ) : ℚ) := by
    unfold PyFloat.toRat
    push_cast
    ring
  rw [hval]
  unfold pyTruncScaled pyTrunc
  have hdz : (((10 ^ f.scale : ℕ) : ℤ)) = (10 : ℤ) ^ f.scale := by push_cast; ring
  rw [← hdz]
  have hd0 : (0 : ℤ) ≤ ((10 ^ f.scale : ℕ) : ℤ) := by positivity
  have hq0 : (0 : ℚ) < ((10 ^ f.scale : ℕ) : ℚ) := by positivity
  rcases le_or_lt 0 (f.mant * m) with hpos | hneg
  · have hnn : ¬ (((f.mant * m : ℤ) : ℚ) / ((10 ^ f.scale : ℕ) : ℚ) < 0) := by
      push_neg
      exact div_nonneg (by exact_mod_cast hpos) (le_of_lt hq0)
    rw [if_neg hnn, Rat.floor_intCast_div_natCast, Int.tdiv_eq_ediv hpos hd0]
  · have hql : ((f.mant * m : ℤ) : ℚ) / ((10 ^ f.scale : ℕ) : ℚ) < 0 :=
      div_neg_of_neg_of_pos (by exact_mod_cast hneg) hq0
    rw [if_pos hql]
    have hneg' : -(((f.mant * m : ℤ) : ℚ) / ((10 ^ f.scale : ℕ) : ℚ))
        = ((-(f.mant * m) : ℤ) : ℚ) / ((10 ^ f.scale : ℕ) : ℚ) := by
      push_cast
      ring
    rw [hneg', Rat.floor_intCast_div_natCast,
      ← Int.tdiv_eq_ediv (by linarith) hd0, Int.neg_tdiv, neg_neg]

theorem statusEvents_not_trial (line : String) :
    ∀ ev ∈ statusEvents line, isTrialEv ev = false := by
  intro ev h
  unfold statusEvents fixationEvents struggleEvents rewardEvents at h
  simp only [List.mem_append] at h
  rcases h with (h | h) | h <;> split_ifs at h <;> simp_all [isTrialEv]

theorem applyEvents_non_trial (es : List DeviceEvent) (s : SessionState)
    (h : ∀ ev ∈ es, isTrialEv ev = false) :
    (applyEvents s es).totals = s.totals ∧ (applyEvents s es).lastTrial = s.lastTrial := by
  induction es generalizing s with
  | nil => exact ⟨rfl, rfl⟩
  | cons e es ih =>
      have he : isTrialEv e = false := h e (List.mem_cons_self e es)
      have hrest : ∀ ev ∈ es, isTrialEv ev = false :=
        fun ev hm => h ev (List.mem_cons_of_mem e hm)
      have hstep : (applyEvent s e).totals = s.totals ∧
          (applyEvent s e).lastTrial = s.lastTrial := by
        cases e <;> simp_all [isTrialEv, applyEvent]
      obtain ⟨h1, h2⟩ := ih (applyEvent s e) hrest
      exact ⟨h1.trans hstep.1, h2.trans hstep.2⟩

theorem applyTrials_totals (es : List TrialResult) (s : SessionState) :
    (applyTrials s es).totals.time.toRat
        = s.totals.time.toRat + (es.map fun e => e.time.toRat).sum ∧
    (applyTrials s es).totals.fix = s.totals.fix + (es.map TrialResult.fix).sum ∧
    (applyTrials s es).totals.escape = s.totals.escape + (es.map TrialResult.escape).sum ∧
    (applyTrials s es).totals.timeup = s.totals.timeup + (es.map TrialResult.timeup).sum ∧
    (applyTrials s es).totals.struggle = s.totals.struggle + (es.map TrialResult.struggle).sum ∧
    (applyTrials s es).totals.reward = s.totals.reward + (es.map TrialResult.reward).sum := by
  induction es generalizing s with
  | nil => simp [applyTrials]
  | cons e es ih =>
      obtain ⟨h1, h2, h3, h4, h5, h6⟩ := ih (update_table s e)
      refine ⟨?_, ?_, ?_, ?_, ?_, ?_⟩ <;>
        simp only [applyTrials, List.foldl_cons, List.map_cons, List.sum_cons] at *
      · rw [h1]
        simp [update_table, PyFloat.toRat_add]
        ring
      · rw [h2]
        simp [update_table]
        ring
      · rw [h3]
        simp [update_table]
        ring
      · rw [h4]
        simp [update_table]
        ring
      · rw [h5]
        simp [update_table]
        ring
      · rw [h6]
        simp [update_table]
        ring

theorem applyTrials_lastTrial (es : List TrialResult) (s : SessionState) :
    (applyTrials s es).lastTrial = es.getLastD s.lastTrial := by
  induction es generalizing s with
  | nil => rfl
  | cons e es ih =>
      rw [List.getLastD_cons]
      simpa [applyTrials] using ih (update_table s e)

example : parsePyFloat "12.5" = some ⟨125, 1⟩ := by decide
example : parsePyFloat "350.7" = some ⟨3507, 1⟩ := by decide
example : parsePyFloat "-1" = some ⟨-1, 0⟩ := by decide
example : parsePyFloat "abc" = none := by decide
example : parsePyFloat "" = none := by decide
example : parsePyInt " 3 " = some 3 := by decide
example : parsePyInt "1.5" = none := by decide
example : pyTruncScaled ⟨3507, 1⟩ 1 = 350 := by decide
example : pyTruncScaled ⟨-15, 1⟩ 1 = -1 := by decide
example : pyTruncScaled ⟨10015, 4⟩ 1000 = 1001 := by decide
example : splitOnComma "EVENT,1,2".toList = ["EVENT".toList, "1".toList, "2".toList] := by
  decide
example : strContains "abc Reward Given xyz" "Reward Given" = true := by decide
example : strBeginsWith "EVENT,1" "EVENT," = true := by decide

/-! ## Claim theorems -/

/-- C1: after applying N trial events from a cleared state, every totals
entry equals the sum of the corresponding field over the N events (the
time entry as an exact rational), the displayed last-trial row equals the
fields of the Nth event, and among decoded event kinds only a trial event
mutates the totals. -/
theorem c1_totals_sum_lastTrial :
    (∀ (s0 : SessionState) (es : List TrialResult),
      (applyTrials (reset_table s0) es).totals.time.toRat
          = (es.map fun e => e.time.toRat).sum ∧
      (applyTrials (reset_table s0) es).totals.fix = (es.map TrialResult.fix).sum ∧
      (applyTrials (reset_table s0) es).totals.escape = (es.map TrialResult.escape).sum ∧
      (applyTrials (reset_table s0) es).totals.timeup = (es.map TrialResult.timeup).sum ∧
      (applyTrials (reset_table s0) es).totals.struggle = (es.map TrialResult.struggle).sum ∧
      (applyTrials (reset_table s0) es).totals.reward = (es.map TrialResult.reward).sum ∧
      (es ≠ [] → (applyTrials (reset_table s0) es).lastTrial = es.getLastD zeroTrial)) ∧
    (∀ (s : SessionState) (ev : DeviceEvent), isTrialEv ev = false →
      (applyEvent s ev).totals = s.totals) := by
  constructor
  · intro s0 es
    obtain ⟨h1, h2, h3, h4, h5, h6⟩ := applyTrials_totals es (reset_table s0)
    have hz : (reset_table s0).totals = zeroTotals := rfl
    refine ⟨?_, ?_, ?_, ?_, ?_, ?_, ?_⟩
    · rw [h1, hz]
      show zeroTotals.time.toRat + _ = _
      rw [show zeroTotals.time = PyFloat.zero from rfl, PyFloat.toRat_zero, zero_add]
    · rw [h2, hz]
      exact zero_add _
    · rw [h3, hz]
      exact zero_add _
    · rw [h4, hz]
      exact zero_add _
    · rw [h5, hz]
      exact zero_add _
    · rw [h6, hz]
      exact zero_add _
    · intro _
      rw [applyTrials_lastTrial es (reset_table s0)]
      rfl
  · intro s ev h
    cases ev <;> simp_all [isTrialEv, applyEvent]

/-- Witness for C1 at a concrete two-trial run from a nontrivial prior
state. -/
theorem c1_totals_sum_lastTrial_witness :
    (applyTrials (reset_table demoState) [trialA, trialB]).totals.fix
        = ([trialA, trialB].map TrialResult.fix).sum ∧
    (applyTrials (reset_table demoState) [trialA, trialB]).lastTrial
        = [trialA, trialB].getLastD zeroTrial ∧
    (applyEvent demoState .rewardGiven).totals = demoState.totals := by
  refine ⟨(c1_totals_sum_lastTrial.1 demoState [trialA, trialB]).2.1,
    (c1_totals_sum_lastTrial.1 demoState [trialA, trialB]).2.2.2.2.2.2 (by decide),
    c1_totals_sum_lastTrial.2 demoState .rewardGiven (by decide)⟩

/-- C2: the claim that every foreground snapshot of the totals reflects
some prefix of the applied trial events fails on the code: `update_serial`
runs on a plain daemon thread and `update_table` mutates the six totals
entries one statement at a time (lines 87-92) with no lock, so the
snapshot taken after the first three statements of a single trial
application agrees with neither the empty prefix nor the completed
application.  The first conjunct checks the statement decomposition
against `update_table` itself. -/
theorem c2_torn_totals_snapshot :
    (∀ (s : SessionState) (e : TrialResult),
        runSteps s.totals (totalsSteps e) = (update_table s e).totals) ∧
    runSteps (reset_table demoState).totals ((totalsSteps tornTrial).take 3)
        ≠ (reset_table demoState).totals ∧
    runSteps (reset_table demoState).totals ((totalsSteps tornTrial).take 3)
        ≠ (update_table (reset_table demoState) tornTrial).totals :=
  ⟨fun _ _ => rfl, by decide, by decide⟩

/-- C3 counterexample: the operator input "-1" parses to a negative
number, yet the code performs the transport write "T-1\n" and updates the
parameter entry — only inputs that fail to parse are rejected, negative
numbers are not. -/
theorem c3_negative_input_writes :
    send_value_entry (some ⟨3507, 1⟩) "-1" "T" 1 = (some ⟨-1, 0⟩, ["T-1\n"]) ∧
    send_threshold "-1" ≠ [] :=
  ⟨by decide, by decide⟩

/-- C3 amended: an operator input that cannot be parsed as a number is
rejected — no transport write happens and the ParameterSet entry keeps its
previous value.  (Inputs that parse to negative numbers are not rejected;
see the counterexample.) -/
theorem c3_unparseable_no_write (prev : Option PyFloat) (input command : String)
    (multiplier : ℤ) (h : parsePyFloat input = none) :
    send_value_entry prev input command multiplier = (prev, []) ∧
    send_value input command multiplier = [] := by
  constructor <;> simp [send_value_entry, send_value, h]

/-- Witness for the amended C3 at the unparseable input "abc". -/
theorem c3_unparseable_no_write_witness :
    send_value_entry (some ⟨3507, 1⟩) "abc" "T" 1 = (some ⟨3507, 1⟩, []) ∧
    send_value "abc" "T" 1 = [] :=
  c3_unparseable_no_write (some ⟨3507, 1⟩) "abc" "T" 1 (by decide)

/-- C4 counterexample: `send_level 6` writes "L6\n" instead of failing
with no write — the function has no range check at all. -/
theorem c4_out_of_range_writes :
    send_level 6 = ["L6\n"] ∧ send_level 6 ≠ [] :=
  ⟨by decide, by decide⟩

/-- C4 amended: for every integer level the command is the single write
"L<level>\n" — in particular level 3 writes exactly "L3\n" — and no
validation restricts the level to 1..5 (only the GUI buttons do, by
construction). -/
theorem c4_level_write_format :
    (∀ level : ℤ, send_level level = ["L" ++ toString level ++ "\n"] ∧
        (send_level level).length = 1) ∧
    send_level 1 = ["L1\n"] ∧ send_level 2 = ["L2\n"] ∧ send_level 3 = ["L3\n"] ∧
    send_level 4 = ["L4\n"] ∧ send_level 5 = ["L5\n"] :=
  ⟨fun _ => ⟨rfl, rfl⟩, by decide, by decide, by decide, by decide, by decide⟩

/-- C5 counterexample: the line "EVENT,Fixation Engaged" has the EVENT
prefix and the wrong field count (2, not 7); the claim says decoding
produces Unrecognized (no event), but the code falls through to the
status checks and produces FixationChanged(ACTIVE). -/
theorem c5_wrong_arity_status_leak :
    decodeLine "EVENT,Fixation Engaged" = [.fixationChanged .ACTIVE] ∧
    decodeLine "EVENT,Fixation Engaged" ≠ [] :=
  ⟨by decide, by decide⟩

/-- C5 amended: a 7-field EVENT line whose fields parse yields the trial
event with exactly those values; on a wrong field count or a parse
failure no trial event is produced and neither the totals nor the
last-trial row changes (a wrong-count line still undergoes status-phrase
matching; a parse failure aborts the iteration and produces nothing). -/
theorem c5_event_parse :
    (∀ (p0 p1 p2 p3 p4 p5 p6 : List Char) (v : PyFloat) (a b c d e : ℤ),
        pyFloatOfChars p1 = some v → pyIntOfChars p2 = some a →
        pyIntOfChars p3 = some b → pyIntOfChars p4 = some c →
        pyIntOfChars p5 = some d → pyIntOfChars p6 = some e →
        parseEventFields [p0, p1, p2, p3, p4, p5, p6] = some ⟨v, a, b, c, d, e⟩) ∧
    (∀ (line : String) (t : TrialResult),
        trialBranch line = .event t → DeviceEvent.trialResult t ∈ decodeLine line) ∧
    (∀ (line : String) (s : SessionState),
        trialBranch line = .noEvent ∨ trialBranch line = .exn →
        (∀ t, DeviceEvent.trialResult t ∉ decodeLine line) ∧
        (applyLine s line).totals = s.totals ∧
        (applyLine s line).lastTrial = s.lastTrial) := by
  refine ⟨?_, ?_, ?_⟩
  · intro p0 p1 p2 p3 p4 p5 p6 v a b c d e h1 h2 h3 h4 h5 h6
    simp [parseEventFields, h1, h2, h3, h4, h5, h6]
  · intro line t h
    simp only [decodeLine, h]
    exact List.mem_cons_self _ _
  · intro line s h
    have hdec : decodeLine line = statusEvents line ∨ decodeLine line = [] := by
      rcases h with h | h <;> simp [decodeLine, h]
    rcases hdec with hd | hd
    · refine ⟨?_, ?_, ?_⟩
      · intro t hm
        have := statusEvents_not_trial line _ (hd ▸ hm)
        simp [isTrialEv] at this
      · exact (applyEvents_non_trial _ s (by rw [hd] at *; exact statusEvents_not_trial line) :
          ((applyEvents s (decodeLine line)).totals = s.totals ∧ _)).1
      · exact (applyEvents_non_trial (decodeLine line) s
          (by rw [hd]; exact statusEvents_not_trial line)).2
    · refine ⟨?_, ?_, ?_⟩
      · intro t hm
        rw [hd] at hm
        exact List.not_mem_nil _ hm
      · show (applyEvents s (decodeLine line)).totals = s.totals
        rw [hd]
        rfl
      · show (applyEvents s (decodeLine line)).lastTrial = s.lastTrial
        rw [hd]
        rfl

/-- Witness for the amended C5: the spec's own well-formed and wrong-arity
examples. -/
theorem c5_event_parse_witness :
    parseEventFields ["EVENT".toList, "12.5".toList, "1".toList, "0".toList,
        "0".toList, "0".toList, "1".toList] = some trialA ∧
    DeviceEvent.trialResult trialA ∈ decodeLine "EVENT,12.5,1,0,0,0,1" ∧
    (applyLine demoState "EVENT,1,2").totals = demoState.totals := by
  refine ⟨?_, ?_, ?_⟩
  · exact c5_event_parse.1 "EVENT".toList "12.5".toList "1".toList "0".toList
      "0".toList "0".toList "1".toList ⟨125, 1⟩ 1 0 0 0 1
      (by decide) (by decide) (by decide) (by decide) (by decide) (by decide)
  · exact c5_event_parse.2.1 "EVENT,12.5,1,0,0,0,1" trialA (by decide)
  · exact (c5_event_parse.2.2 "EVENT,1,2" demoState (Or.inl (by decide))).2.1

/-- C6 counterexample: a 7-field EVENT line containing both a fixation
phrase and a struggle phrase produces nothing at all — the ValueError
raised while parsing field 1 aborts the iteration before the status
groups run, so on this line the two groups are not evaluated and neither
event is produced, contradicting the claim for every input line. -/
theorem c6_exception_skips_status :
    strContains "EVENT,Fixation Engaged,0,0,0,0,Struggle YES" "Fixation Engaged" = true ∧
    strContains "EVENT,Fixation Engaged,0,0,0,0,Struggle YES" "Struggle YES" = true ∧
    decodeLine "EVENT,Fixation Engaged,0,0,0,0,Struggle YES" = [] :=
  ⟨by decide, by decide, by decide⟩

/-- C6 amended: on every line whose EVENT branch does not raise (in
particular every line without the "EVENT," prefix) the fixation-phrase
group and the struggle-phrase group are evaluated independently, so a
line containing both "Fixation Engaged" and "Struggle YES" produces both
events; the spec's compound line produces exactly the two events. -/
theorem c6_independent_groups :
    (∀ line : String, trialBranch line ≠ .exn →
        strContains line "Fixation Engaged" = true →
        strContains line "Struggle YES" = true →
        DeviceEvent.fixationChanged .ACTIVE ∈ decodeLine line ∧
        DeviceEvent.struggleChanged .YES ∈ decodeLine line) ∧
    decodeLine "Fixation Engaged and Struggle YES" =
      [.fixationChanged .ACTIVE, .struggleChanged .YES] := by
  constructor
  · intro line hexn hfix hstr
    have hfixev : fixationEvents line = [.fixationChanged .ACTIVE] := by
      unfold fixationEvents
      rw [if_pos hfix]
    have hstrev : struggleEvents line = [.struggleChanged .YES] := by
      unfold struggleEvents
      rw [if_pos hstr]
    have hmem1 : DeviceEvent.fixationChanged .ACTIVE ∈ statusEvents line := by
      unfold statusEvents
      rw [hfixev]
      simp
    have hmem2 : DeviceEvent.struggleChanged .YES ∈ statusEvents line := by
      unfold statusEvents
      rw [hstrev]
      simp
    have hd : decodeLine line = statusEvents line ∨
        ∃ t, decodeLine line = .trialResult t :: statusEvents line := by
      cases htb : trialBranch line with
      | exn => exact absurd htb hexn
      | event t => exact Or.inr ⟨t, by simp [decodeLine, htb]⟩
      | noEvent => exact Or.inl (by simp [decodeLine, htb])
    rcases hd with hd | ⟨t, hd⟩ <;> rw [hd]
    · exact ⟨hmem1, hmem2⟩
    · exact ⟨List.mem_cons_of_mem _ hmem1, List.mem_cons_of_mem _ hmem2⟩
  · decide

/-- Witness for the amended C6 at the spec's compound status line. -/
theorem c6_independent_groups_witness :
    DeviceEvent.fixationChanged .ACTIVE ∈ decodeLine "Fixation Engaged and Struggle YES" ∧
    DeviceEvent.struggleChanged .YES ∈ decodeLine "Fixation Engaged and Struggle YES" :=
  c6_independent_groups.1 "Fixation Engaged and Struggle YES"
    (by decide) (by decide) (by decide)

/-- C7: for every parseable operator input, each parameter setter performs
exactly one transport write "<letter><intValue>\n", where the integer
payload is the truncation of the exact input value scaled per kind:
threshold (T), escape buffer (Z) and reward buffer (Q) unscaled, fix
duration (X) and fix delay (Y) multiplied by 1000. -/
theorem c7_parameter_scaling (input : String) (v : PyFloat)
    (h : parsePyFloat input = some v) :
    send_threshold input = ["T" ++ toString (pyTrunc v.toRat) ++ "\n"] ∧
    send_fix_duration input = ["X" ++ toString (pyTrunc (v.toRat * 1000)) ++ "\n"] ∧
    send_fix_delay input = ["Y" ++ toString (pyTrunc (v.toRat * 1000)) ++ "\n"] ∧
    send_escape_buffer input = ["Z" ++ toString (pyTrunc v.toRat) ++ "\n"] ∧
    send_reward_buffer input = ["Q" ++ toString (pyTrunc v.toRat) ++ "\n"] := by
  refine ⟨?_, ?_, ?_, ?_, ?_⟩ <;>
    · simp only [send_threshold, send_fix_duration, send_fix_delay, send_escape_buffer,
        send_reward_buffer, send_value, h, pyTruncScaled_toRat]
      norm_num

/-- Witness for C7 at the input "2.5". -/
theorem c7_parameter_scaling_witness :
    send_threshold "2.5" = ["T" ++ toString (pyTrunc (PyFloat.toRat ⟨25, 1⟩)) ++ "\n"] ∧
    send_fix_duration "2.5" =
      ["X" ++ toString (pyTrunc (PyFloat.toRat ⟨25, 1⟩ * 1000)) ++ "\n"] :=
  ⟨(c7_parameter_scaling "2.5" ⟨25, 1⟩ (by decide)).1,
   (c7_parameter_scaling "2.5" ⟨25, 1⟩ (by decide)).2.1⟩

/-- C8: clear zeroes all six totals entries and the last-trial row in one
state transition, and leaves the fixation status, the struggle status, the
session start time and the timer flag unchanged, whatever the prior
state. -/
theorem c8_clear_frame (s : SessionState) :
    (reset_table s).totals = zeroTotals ∧
    (reset_table s).totals.time = PyFloat.zero ∧
    (reset_table s).totals.fix = 0 ∧
    (reset_table s).totals.escape = 0 ∧
    (reset_table s).totals.timeup = 0 ∧
    (reset_table s).totals.struggle = 0 ∧
    (reset_table s).totals.reward = 0 ∧
    (reset_table s).lastTrial = zeroTrial ∧
    (reset_table s).fixationStatus = s.fixationStatus ∧
    (reset_table s).struggleStatus = s.struggleStatus ∧
    (reset_table s).sessionStartTime = s.sessionStartTime ∧
    (reset_table s).timerRunning = s.timerRunning :=
  ⟨rfl, rfl, rfl, rfl, rfl, rfl, rfl, rfl, rfl, rfl, rfl, rfl⟩

/-- C9: the integer payload written by send_value is int(value *
multiplier) computed by truncation toward zero, not rounding: pyTrunc
agrees with the floor on nonnegative values and is an odd function, the
threshold input 350.7 is written as "T350\n" (where rounding would give
351), and the fix-duration input 1.0015 seconds as "X1001\n". -/
theorem c9_truncation_toward_zero :
    (∀ (input : String) (v : PyFloat) (command : String) (m : ℤ),
        parsePyFloat input = some v →
        send_value input command m =
          [command ++ toString (pyTrunc (v.toRat * (m : ℚ))) ++ "\n"]) ∧
    (∀ q : ℚ, 0 ≤ q → pyTrunc q = ⌊q⌋) ∧
    (∀ q : ℚ, pyTrunc (-q) = -pyTrunc q) ∧
    send_threshold "350.7" = ["T350\n"] ∧
    send_fix_duration "1.0015" = ["X1001\n"] ∧
    pyTrunc ((3507 : ℚ) / 10) = 350 ∧
    round ((3507 : ℚ) / 10) = 351 := by
  refine ⟨?_, ?_, ?_, by decide, by decide, ?_, ?_⟩
  · intro input v command m h
    simp only [send_value, h, pyTruncScaled_toRat]
  · intro q hq
    unfold pyTrunc
    rw [if_neg (not_lt.mpr hq)]
  · intro q
    unfold pyTrunc
    rcases lt_trichotomy q 0 with h | h | h
    · have h1 : ¬ -q < 0 := by linarith
      rw [if_neg h1, if_pos h, neg_neg]
    · rw [h]
      norm_num
    · have h1 : -q < 0 := by linarith
      have h2 : ¬ q < 0 := by linarith
      rw [if_pos h1, if_neg h2, neg_neg]
  · unfold pyTrunc
    rw [if_neg (by norm_num)]
    rw [show ((3507 : ℚ) / 10) = ((3507 : ℤ) : ℚ) / ((10 : ℕ) : ℚ) by norm_num,
      Rat.floor_intCast_div_natCast]
    decide
  · rw [round_eq]
    rw [show ((3507 : ℚ) / 10 + 1 / 2) = ((1756 : ℤ) : ℚ) / ((5 : ℕ) : ℚ) by norm_num,
      Rat.floor_intCast_div_natCast]
    decide

/-- Witness for C9 at the threshold input 350.7. -/
theorem c9_truncation_toward_zero_witness :
    send_value "350.7" "T" 1 =
      ["T" ++ toString (pyTrunc (PyFloat.toRat ⟨3507, 1⟩ * ((1 : ℤ) : ℚ))) ++ "\n"] :=
  c9_truncation_toward_zero.1 "350.7" ⟨3507, 1⟩ "T" 1 (by decide)

/-- C10 counterexample: the claim fails as stated over every input line —
on a 7-field EVENT line containing the status phrase "Reward Given", the
ValueError raised while parsing field 1 aborts the iteration, so the
status matching is skipped and no event at all is produced: here the
EVENT branch does consume the line. -/
theorem c10_exception_consumes_line :
    strBeginsWith "EVENT,Reward Given,1,1,1,1,1" "EVENT," = true ∧
    (splitOnComma "EVENT,Reward Given,1,1,1,1,1".toList).length = 7 ∧
    strContains "EVENT,Reward Given,1,1,1,1,1" "Reward Given" = true ∧
    decodeLine "EVENT,Reward Given,1,1,1,1,1" = [] :=
  ⟨by decide, by decide, by decide, by decide⟩

/-- C10 amended: on every line whose EVENT branch does not raise, trial
parsing and status-phrase matching are both applied to the same line —
whenever the branch yields a trial event the status events follow it, and
whenever it yields no trial event (no prefix, or wrong field count) the
status matching alone decides the output; only a field-parse exception on
a 7-field EVENT line consumes the line, skipping the status matching and
producing nothing. -/
theorem c10_trial_and_status_same_line :
    (∀ (line : String) (t : TrialResult), trialBranch line = .event t →
        decodeLine line = .trialResult t :: statusEvents line) ∧
    (∀ line : String, trialBranch line = .noEvent →
        decodeLine line = statusEvents line) ∧
    (∀ line : String, trialBranch line = .exn →
        decodeLine line = []) := by
  refine ⟨?_, ?_, ?_⟩
  · intro line t h
    simp [decodeLine, h]
  · intro line h
    simp [decodeLine, h]
  · intro line h
    simp [decodeLine, h]

/-- Witness for the amended C10: a well-formed trial line, an
EVENT-prefixed wrong-arity line whose status phrase is still matched, and
a raising 7-field line that produces nothing. -/
theorem c10_trial_and_status_same_line_witness :
    decodeLine "EVENT,12.5,1,0,0,0,1" =
      .trialResult trialA :: statusEvents "EVENT,12.5,1,0,0,0,1" ∧
    decodeLine "EVENT,Reward Given" = statusEvents "EVENT,Reward Given" ∧
    decodeLine "EVENT,a,b,c,d,e,f" = [] :=
  ⟨c10_trial_and_status_same_line.1 "EVENT,12.5,1,0,0,0,1" trialA (by decide),
   c10_trial_and_status_same_line.2.1 "EVENT,Reward Given" (by decide),
   c10_trial_and_status_same_line.2.2 "EVENT,a,b,c,d,e,f" (by decide)⟩
